import Mathlib

/-!
Verification of the real-time collaboration client of management-hub.

The definitions below are a shallow embedding of the client-side code:
`src/frontend/src/services/websocket.js` (class WebSocketService),
`src/frontend/src/components/Chat.js` and
`src/frontend/src/components/Notifications.js`.

JavaScript Maps keyed by connection-key strings are embedded as functions
`String -> Option _`; message handlers are identified by natural-number ids;
timers are made explicit (a pending deadline in milliseconds together with
events carrying the current time).
-/

/-- A JSON value, as far as the frames built by the client need: strings,
numbers, booleans and objects (association lists of fields). -/
inductive JVal where
  | str (s : String)
  | num (n : Nat)
  | jbool (b : Bool)
  | obj (fields : List (String × JVal))

/-- The browser WebSocket object as the service sees it: the url/room it was
opened for and its readyState (0 CONNECTING, 1 OPEN, 2 CLOSING, 3 CLOSED).
The readyState field is owned by the transport, not by WebSocketService. -/
structure Conn where
  url : String
  room : String
  readyState : Nat

/-- websocket.js `WebSocket.OPEN`. -/
def WebSocketOPEN : Nat := 1

/-- State of the WebSocketService singleton (websocket.js lines 2-6):
`connections`, `messageHandlers` and `isConnecting` are JS Maps keyed by the
connection key; `isConnecting.get` of an absent key is undefined, i.e. falsy,
so that map is embedded with default `false`. -/
structure WSService where
  connections : String → Option Conn
  messageHandlers : String → Option (List Nat)
  isConnecting : String → Bool

/-- The service state at page load: all three maps empty. -/
def emptyWS : WSService where
  connections := fun _ => none
  messageHandlers := fun _ => none
  isConnecting := fun _ => false

/-- websocket.js line 9: the key `${url}_${room}`. -/
def connectionKey (url room : String) : String := url ++ "_" ++ room

/-- Result of a `connect` call: the existing socket, `null` (a connection
attempt for the key is already in flight), or a freshly created socket. -/
inductive ConnectOutcome where
  | existing (c : Conn)
  | inFlight
  | created (c : Conn)

/-- websocket.js `connect` (lines 8-58): return the existing connection if the
key is present; return null if an attempt is in flight; otherwise mark the key
as connecting, create a new WebSocket (readyState CONNECTING) and store it.
The token only feeds the ws url. -/
def connect (s : WSService) (url room token : String) : ConnectOutcome × WSService :=
  let key := connectionKey url room
  match s.connections key with
  | some ws => (ConnectOutcome.existing ws, s)
  | none =>
    if s.isConnecting key then
      (ConnectOutcome.inFlight, s)
    else
      let ws : Conn := { url := url, room := room, readyState := 0 }
      (ConnectOutcome.created ws,
       { s with
          isConnecting := fun k => if k = key then true else s.isConnecting k,
          connections := fun k => if k = key then some ws else s.connections k })

/-- websocket.js `ws.onopen` (lines 24-27): clear the isConnecting flag. The
transport has moved the socket's readyState to OPEN by itself. -/
def onopen (s : WSService) (url room : String) : WSService :=
  let key := connectionKey url room
  { s with
      isConnecting := fun k => if k = key then false else s.isConnecting k,
      connections := fun k =>
        if k = key then (s.connections k).map (fun c => { c with readyState := WebSocketOPEN })
        else s.connections k }

/-- websocket.js `ws.onclose` (lines 38-49): delete the connection, clear the
isConnecting flag, and schedule a reconnect (via setTimeout) exactly when the
close code is not 1000. The boolean returned says whether a reconnect was
scheduled. -/
def onclose (s : WSService) (url room : String) (code : Nat) : WSService × Bool :=
  let key := connectionKey url room
  ({ s with
      connections := fun k => if k = key then none else s.connections k,
      isConnecting := fun k => if k = key then false else s.isConnecting k },
   code != 1000)

/-- websocket.js line 47: the literal delay passed to setTimeout when a
reconnect is scheduled. The code keeps no attempt counter; the argument is
the number of consecutive failed attempts and is ignored. -/
def reconnectDelay (_attempt : Nat) : Nat := 3000

/-- Modelled from the spec: lower end of the delay range prescribed for the
n-th reconnect attempt — base 1s, factor 2 per attempt, capped at 30s, minus
the 20% jitter allowance (milliseconds). -/
def specBackoffLo (n : Nat) : Nat := 8 * min (1000 * 2 ^ n) 30000 / 10

/-- Modelled from the spec: upper end of the prescribed delay range — the
capped exponential value plus the 20% jitter allowance (milliseconds). -/
def specBackoffHi (n : Nat) : Nat := 12 * min (1000 * 2 ^ n) 30000 / 10

/-- websocket.js `addMessageHandler` (lines 82-88): ensure the key has a
handler list, then push the handler. There is no membership check. -/
def addMessageHandler (s : WSService) (url room : String) (handler : Nat) : WSService :=
  let key := connectionKey url room
  let handlers := (s.messageHandlers key).getD []
  { s with
      messageHandlers := fun k =>
        if k = key then some (handlers ++ [handler]) else s.messageHandlers k }

/-- websocket.js `removeMessageHandler` (lines 90-99): indexOf finds the first
occurrence and splice removes it; absent handler or absent key is a no-op. -/
def removeMessageHandler (s : WSService) (url room : String) (handler : Nat) : WSService :=
  let key := connectionKey url room
  match s.messageHandlers key with
  | none => s
  | some handlers =>
    { s with
        messageHandlers := fun k =>
          if k = key then some (handlers.erase handler) else s.messageHandlers k }

/-- websocket.js `handleMessage` (lines 101-110): the handlers invoked, in
order, for one message received on `key` — each element of this list is called
once with the parsed data (per-handler exceptions are caught and logged, so
every element is reached). The number of deliveries to a handler id is its
count in this list. -/
def handleMessageCalls (s : WSService) (key : String) : List Nat :=
  (s.messageHandlers key).getD []

/-- Outcome of websocket.js `sendMessage` (lines 71-80). The constructor
`queued` is the outcome the spec prescribes for a send while disconnected;
the implementation never produces it (it only logs a console error). -/
inductive SendOutcome where
  | sent
  | queued
  | droppedNotConnected
deriving DecidableEq

/-- websocket.js `sendMessage` (lines 71-80): send iff the key has a
connection whose readyState is OPEN; otherwise log an error and discard the
message. The service state is not modified in either case, and no queue
exists anywhere in the class. -/
def sendMessage (s : WSService) (url room : String) (_message : List (String × JVal)) :
    SendOutcome :=
  let key := connectionKey url room
  match s.connections key with
  | some ws =>
    if ws.readyState = WebSocketOPEN then SendOutcome.sent else SendOutcome.droppedNotConnected
  | none => SendOutcome.droppedNotConnected

/-- One disconnect/reconnect cycle observed by the service: the transport
closes with `code` (running ws.onclose), and when the close scheduled a
reconnect, the 3-second timer later fires and runs `connect` again. -/
def recCycle (s : WSService) (url room token : String) (code : Nat) : WSService :=
  let closed := (onclose s url room code).1
  if (onclose s url room code).2 then (connect closed url room token).2 else closed

/-- A sequence of disconnect/reconnect cycles, one per close code. -/
def runReconnects (s : WSService) (url room token : String) : List Nat → WSService
  | [] => s
  | c :: cs => runReconnects (recCycle s url room token c) url room token cs

/-- websocket.js `sendChatMessage` / `sendTypingIndicator` / `sendTaskUpdate`
all end in one call of `sendMessage(url, room, frame)`; this record is that
call: the target key components and the JSON frame serialized onto the wire. -/
structure OutboundCall where
  url : String
  room : String
  frame : List (String × JVal)

/-- websocket.js `sendChatMessage` (lines 125-130): target `/ws/chat/` and a
flat two-field frame. -/
def sendChatMessage (room message : String) : OutboundCall where
  url := "/ws/chat/"
  room := room
  frame := [("type", JVal.str "chat_message"), ("message", JVal.str message)]

/-- websocket.js `sendTypingIndicator` (lines 132-137). -/
def sendTypingIndicator (room : String) (isTyping : Bool) : OutboundCall where
  url := "/ws/chat/"
  room := room
  frame := [("type", JVal.str "typing"), ("is_typing", JVal.jbool isTyping)]

/-- websocket.js `sendTaskUpdate` (lines 139-146); `timestamp` stands for the
`new Date().toISOString()` string computed at call time. -/
def sendTaskUpdate (projectId : String) (taskId : Nat) (updates : JVal) (timestamp : String) :
    OutboundCall where
  url := "/ws/project/"
  room := projectId
  frame := [("type", JVal.str "task_update"), ("task_id", JVal.num taskId),
            ("updates", updates), ("timestamp", JVal.str timestamp)]

/-- Field names of the JSON object an outbound call puts on the wire. -/
def frameFields (c : OutboundCall) : List String := c.frame.map Prod.fst

/-- Modelled from the spec: the envelope fields every wire frame is claimed
to carry — type, room, payload, sender, ts, seq. -/
def specEnvelopeFields : List String := ["type", "room", "payload", "sender", "ts", "seq"]

/-- JavaScript `String.prototype.trim()`: strip leading and trailing
whitespace. Embedded structurally over the character list so that it
evaluates inside the kernel. -/
def jsTrim (s : String) : String :=
  String.mk (((s.data.dropWhile Char.isWhitespace).reverse.dropWhile Char.isWhitespace).reverse)

/-- State of the Chat component (Chat.js): its room prop, the controlled
input value `newMessage`, and `typingTimeoutRef` as the absolute time (ms) at
which the pending typing-stop timer fires, if one is pending. -/
structure ChatComp where
  room : String
  newMessage : String
  typingTimeout : Option Nat

/-- Chat.js `handleTyping` (lines 113-128), run at time `t` with the new input
value `text`: store the text, send a typing-start indicator now, clear any
previous timeout and schedule a typing-stop 2000 ms from now. Emitted frames
are tagged with the time they are sent. -/
def handleTyping (cs : ChatComp) (t : Nat) (text : String) :
    ChatComp × List (Nat × OutboundCall) :=
  ({ cs with newMessage := text, typingTimeout := some (t + 2000) },
   [(t, sendTypingIndicator cs.room true)])

/-- Chat.js `handleSendMessage` (lines 99-111), run at time `t`: if the input
is empty after trim, return before doing anything; otherwise send the trimmed
chat message, clear the input, send a typing-stop indicator and cancel the
pending typing-stop timer. It never touches the WebSocketService connection
maps, so the connection stays open either way. -/
def handleSendMessage (cs : ChatComp) (t : Nat) : ChatComp × List (Nat × OutboundCall) :=
  if jsTrim cs.newMessage = "" then (cs, [])
  else
    ({ cs with newMessage := "", typingTimeout := none },
     [(t, sendChatMessage cs.room (jsTrim cs.newMessage)),
      (t, sendTypingIndicator cs.room false)])

/-- The typing-stop timer callback (Chat.js lines 125-127) as seen at time
`t`: it runs, and sends is_typing:false, exactly when the pending deadline is
`t` (an earlier clearTimeout removed any other deadline). -/
def typingTimeoutFire (cs : ChatComp) (t : Nat) : ChatComp × List (Nat × OutboundCall) :=
  if cs.typingTimeout = some t then
    ({ cs with typingTimeout := none }, [(t, sendTypingIndicator cs.room false)])
  else (cs, [])

/-- A run of consecutive keystrokes: `handleTyping` applied at each
(time, input value) in order. -/
def runKeystrokes (cs : ChatComp) : List (Nat × String) → ChatComp
  | [] => cs
  | k :: ks => runKeystrokes (handleTyping cs k.1 k.2).1 ks

/-- Chat.js `handleTypingIndicator` (lines 91-97): on is_typing true, filter
the username out and append it; on false, filter it out. -/
def handleTypingIndicator (typingUsers : List String) (username : String) (isTyping : Bool) :
    List String :=
  if isTyping then typingUsers.filter (fun u => u != username) ++ [username]
  else typingUsers.filter (fun u => u != username)

/-- The typingUsers state after a sequence of typing indicator events applied
to the initial value [] (Chat.js line 18). -/
def typingUsersAfter (events : List (String × Bool)) : List String :=
  events.foldl (fun l e => handleTypingIndicator l e.1 e.2) []

/-- The three operations Notifications.js performs on the unread counter. -/
inductive NotifOp where
  | receive
  | read1
  | readAll

/-- Notifications.js `markAsRead` (line 117): `Math.max(0, prev - 1)`. -/
def markAsRead (unreadCount : Int) : Int := max 0 (unreadCount - 1)

/-- Notifications.js `markAllAsRead` (line 127): the counter is set to 0. -/
def markAllAsRead (_unreadCount : Int) : Int := 0

/-- Notifications.js `handleMessage` (line 64): a received notification does
`prev + 1`. -/
def receiveNotification (unreadCount : Int) : Int := unreadCount + 1

/-- Dispatch one counter operation. -/
def applyNotifOp (c : Int) : NotifOp → Int
  | NotifOp.receive => receiveNotification c
  | NotifOp.read1 => markAsRead c
  | NotifOp.readAll => markAllAsRead c

/-- Claim C2: for every physical connection close, ws.onclose schedules a
reconnect attempt if and only if the close code differs from 1000, and a
close with code 1000 never schedules one. -/
theorem onclose_schedules_reconnect_iff (s : WSService) (url room : String) (code : Nat) :
    ((onclose s url room code).2 = true ↔ code ≠ 1000) ∧
    (onclose s url room 1000).2 = false := by
  refine ⟨?_, rfl⟩
  simp [onclose]

/-- Claim C2 witness: an abnormal close (1006) schedules a reconnect. -/
theorem onclose_schedules_reconnect_iff_witness :
    (onclose emptyWS "/ws/chat/" "general" 1006).2 = true :=
  (onclose_schedules_reconnect_iff emptyWS "/ws/chat/" "general" 1006).1.mpr (by decide)

/-- Claim C3 counterexample: the delay used for the reconnect scheduled after
the first failed attempt is 3000 ms, which lies outside the spec's jittered
exponential range [1600, 2400] for attempt 1, and the delay does not vary with
the attempt number at all. -/
theorem reconnectDelay_not_backoff :
    reconnectDelay 1 = 3000 ∧
    ¬ (specBackoffLo 1 ≤ reconnectDelay 1 ∧ reconnectDelay 1 ≤ specBackoffHi 1) ∧
    reconnectDelay 0 = reconnectDelay 5 := by
  decide

/-- Claim C3 amended: the delay before every scheduled reconnect attempt is
the fixed constant 3000 ms, independent of the attempt number — no exponential
growth, no cap interaction, no jitter. -/
theorem reconnectDelay_constant : ∀ n : Nat, reconnectDelay n = 3000 := fun _ => rfl

/-- Claim C8: connect is idempotent per (url, room) key — when a connection
already exists for the key it is returned unchanged and no state is touched;
when an attempt is in flight, null is returned and no state is touched. The
connections map is keyed by the connection key, so at most one connection per
key exists at any time. -/
theorem connect_idempotent_per_key (s : WSService) (url room token : String) :
    (∀ c, s.connections (connectionKey url room) = some c →
        connect s url room token = (ConnectOutcome.existing c, s)) ∧
    (s.connections (connectionKey url room) = none →
     s.isConnecting (connectionKey url room) = true →
        connect s url room token = (ConnectOutcome.inFlight, s)) := by
  constructor
  · intro c hc
    simp [connect, hc]
  · intro hn hf
    simp [connect, hn, hf]

/-- A service with one open chat connection and one with an in-flight attempt,
used to instantiate the connect idempotence theorem. -/
def demoConn : Conn := { url := "/ws/chat/", room := "general", readyState := 1 }

/-- Service state holding demoConn under the chat/general key. -/
def demoWS : WSService where
  connections := fun k => if k = connectionKey "/ws/chat/" "general" then some demoConn else none
  messageHandlers := fun _ => none
  isConnecting := fun _ => false

/-- Service state with an in-flight connection attempt for chat/general. -/
def demoWSInFlight : WSService where
  connections := fun _ => none
  messageHandlers := fun _ => none
  isConnecting := fun k => k = connectionKey "/ws/chat/" "general"

/-- Claim C8 witness: on the concrete states, connect returns the existing
socket (resp. null) and leaves the state unchanged. -/
theorem connect_idempotent_per_key_witness :
    connect demoWS "/ws/chat/" "general" "tok" = (ConnectOutcome.existing demoConn, demoWS) ∧
    connect demoWSInFlight "/ws/chat/" "general" "tok" =
      (ConnectOutcome.inFlight, demoWSInFlight) :=
  ⟨(connect_idempotent_per_key demoWS "/ws/chat/" "general" "tok").1 demoConn (by simp [demoWS]),
   (connect_idempotent_per_key demoWSInFlight "/ws/chat/" "general" "tok").2 rfl (by
      simp [demoWSInFlight])⟩

/-- Each unread-counter operation keeps the counter non-negative. -/
theorem applyNotifOp_nonneg (c : Int) (op : NotifOp) (h : 0 ≤ c) : 0 ≤ applyNotifOp c op := by
  cases op with
  | receive => simp [applyNotifOp, receiveNotification]; omega
  | read1 => exact le_max_left 0 _
  | readAll => exact le_refl 0

/-- Folding counter operations from a non-negative start stays non-negative. -/
theorem foldl_applyNotifOp_nonneg (ops : List NotifOp) (c : Int) (h : 0 ≤ c) :
    0 ≤ List.foldl applyNotifOp c ops := by
  induction ops generalizing c with
  | nil => exact h
  | cons op rest ih => exact ih _ (applyNotifOp_nonneg c op h)

/-- Claim C10: starting from the initial unread count 0, any sequence of
receive / mark-one-read / mark-all-read operations leaves the count
non-negative; marking one read computes max 0 (c-1), marking all read yields
exactly 0, and receiving a notification adds one. -/
theorem unreadCount_never_negative (ops : List NotifOp) :
    0 ≤ List.foldl applyNotifOp 0 ops ∧
    (∀ c : Int, markAsRead c = max 0 (c - 1)) ∧
    (∀ c : Int, markAllAsRead c = 0) ∧
    (∀ c : Int, receiveNotification c = c + 1) :=
  ⟨foldl_applyNotifOp_nonneg ops 0 le_rfl, fun _ => rfl, fun _ => rfl, fun _ => rfl⟩

/-- Claim C4 counterexample: sending on a key that has no connection discards
the message rather than queueing it — the outcome is droppedNotConnected, not
the queued outcome the spec prescribes. -/
theorem sendMessage_drops_when_disconnected :
    sendMessage emptyWS "/ws/chat/" "general" [("type", JVal.str "chat_message")] =
      SendOutcome.droppedNotConnected ∧
    sendMessage emptyWS "/ws/chat/" "general" [("type", JVal.str "chat_message")] ≠
      SendOutcome.queued := by
  exact ⟨rfl, by decide⟩

/-- Claim C4 amended: a send made while the (url, room) connection is absent
or not OPEN logs a console error and discards the message; there is no queue
(no call of sendMessage, on any state, ever yields the queued outcome) and
nothing is flushed after a reconnect. -/
theorem sendMessage_no_queue (s : WSService) (url room : String) (m : List (String × JVal))
    (h : ∀ ws, s.connections (connectionKey url room) = some ws →
          ws.readyState ≠ WebSocketOPEN) :
    sendMessage s url room m = SendOutcome.droppedNotConnected ∧
    ∀ (s2 : WSService) (u2 r2 : String) (m2 : List (String × JVal)),
      sendMessage s2 u2 r2 m2 ≠ SendOutcome.queued := by
  constructor
  · cases hc : s.connections (connectionKey url room) with
    | none => simp [sendMessage, hc]
    | some ws => simp [sendMessage, hc, h ws hc]
  · intro s2 u2 r2 m2
    cases hc : s2.connections (connectionKey u2 r2) with
    | none => simp [sendMessage, hc]
    | some ws =>
      by_cases hr : ws.readyState = WebSocketOPEN <;> simp [sendMessage, hc, hr]

/-- Claim C4 amended witness: on the empty service, a chat send is dropped. -/
theorem sendMessage_no_queue_witness :
    sendMessage emptyWS "/ws/chat/" "general" [] = SendOutcome.droppedNotConnected :=
  (sendMessage_no_queue emptyWS "/ws/chat/" "general" []
    (fun _ hws => Option.noConfusion hws)).1

/-- Claim C7 counterexample: the chat frame put on the wire for room "general"
with text "hi" has fields ["type", "message"]; it carries no payload object,
no room field, and is not the spec's six-field envelope. -/
theorem chatFrame_not_envelope :
    "payload" ∉ frameFields (sendChatMessage "general" "hi") ∧
    "room" ∉ frameFields (sendChatMessage "general" "hi") ∧
    frameFields (sendChatMessage "general" "hi") ≠ specEnvelopeFields := by
  refine ⟨?_, ?_, ?_⟩ <;> decide

/-- Claim C7 amended: every outbound frame is a flat JSON object holding type
plus type-specific fields — chat_message has exactly {type, message}, typing
has exactly {type, is_typing}, task_update has exactly {type, task_id,
updates, timestamp}; none nests data in a payload or carries room, sender,
ts or seq fields, the room being conveyed by the (url, room) connection key
of the sendMessage call instead. -/
theorem outbound_frames_flat (room message projectId timestamp : String) (isTyping : Bool)
    (taskId : Nat) (updates : JVal) :
    frameFields (sendChatMessage room message) = ["type", "message"] ∧
    frameFields (sendTypingIndicator room isTyping) = ["type", "is_typing"] ∧
    frameFields (sendTaskUpdate projectId taskId updates timestamp) =
      ["type", "task_id", "updates", "timestamp"] ∧
    (sendChatMessage room message).room = room ∧
    (sendTaskUpdate projectId taskId updates timestamp).room = projectId :=
  ⟨rfl, rfl, rfl, rfl, rfl⟩

/-- Claim C5: a chat_message whose text is empty after trimming is rejected
before any frame is built — handleSendMessage returns with no outbound call
and the component state unchanged (the service connection is untouched, hence
still open, and no append or broadcast can be triggered); any later call with
non-empty trimmed text still emits its chat frame followed by the
typing-stop frame. -/
theorem empty_chat_message_rejected (cs : ChatComp) (t : Nat)
    (hempty : jsTrim cs.newMessage = "") :
    handleSendMessage cs t = (cs, []) ∧
    ∀ (cs2 : ChatComp) (t2 : Nat), jsTrim cs2.newMessage ≠ "" →
      (handleSendMessage cs2 t2).2 =
        [(t2, sendChatMessage cs2.room (jsTrim cs2.newMessage)),
         (t2, sendTypingIndicator cs2.room false)] := by
  constructor
  · simp [handleSendMessage, hempty]
  · intro cs2 t2 hne
    simp [handleSendMessage, hne]

/-- Claim C5 witness: a whitespace-only input sends nothing, and a subsequent
non-empty input on the same component still sends its chat frame. -/
theorem empty_chat_message_rejected_witness :
    handleSendMessage { room := "general", newMessage := "   ", typingTimeout := some 5 } 10 =
      ({ room := "general", newMessage := "   ", typingTimeout := some 5 }, []) ∧
    (handleSendMessage { room := "general", newMessage := " hi ", typingTimeout := some 5 } 20).2 =
      [(20, sendChatMessage "general" "hi"), (20, sendTypingIndicator "general" false)] := by
  have h := empty_chat_message_rejected
    { room := "general", newMessage := "   ", typingTimeout := some 5 } 10 (by decide)
  exact ⟨h.1, h.2 { room := "general", newMessage := " hi ", typingTimeout := some 5 } 20
    (by decide)⟩

/-- One typing indicator event keeps the typing-users list duplicate-free:
both branches first filter out every occurrence of the username. -/
theorem handleTypingIndicator_nodup (l : List String) (u : String) (b : Bool)
    (h : l.Nodup) : (handleTypingIndicator l u b).Nodup := by
  unfold handleTypingIndicator
  split
  · refine List.Nodup.append (h.filter _) (List.nodup_singleton u) ?_
    intro x hx hxu
    have hne : x ≠ u := by
      have := List.of_mem_filter hx
      simpa using this
    simp at hxu
    exact hne hxu
  · exact h.filter _

/-- Folding typing indicator events preserves duplicate-freedom. -/
theorem foldl_handleTypingIndicator_nodup (events : List (String × Bool)) (l : List String)
    (h : l.Nodup) :
    (events.foldl (fun acc e => handleTypingIndicator acc e.1 e.2) l).Nodup := by
  induction events generalizing l with
  | nil => exact h
  | cons e rest ih => exact ih _ (handleTypingIndicator_nodup l e.1 e.2 h)

/-- Claim C9: after any sequence of typing indicator events, the typingUsers
list built from the initial empty state has no duplicates — each username
appears at most once. -/
theorem typingUsers_no_duplicates (events : List (String × Bool)) :
    (typingUsersAfter events).Nodup ∧
    ∀ u : String, (typingUsersAfter events).count u ≤ 1 := by
  have hnd := foldl_handleTypingIndicator_nodup events [] List.nodup_nil
  exact ⟨hnd, fun u => List.nodup_iff_count_le_one.mp hnd u⟩

/-- A run of keystrokes ends with the stop timer pending exactly 2000 ms
after the last keystroke of the run. -/
theorem runKeystrokes_typingTimeout (cs : ChatComp) (k : Nat × String)
    (ks : List (Nat × String)) :
    (runKeystrokes cs (k :: ks)).typingTimeout = some ((ks.getLastD k).1 + 2000) := by
  induction ks generalizing cs k with
  | nil => rfl
  | cons k2 ks ih =>
    rw [List.getLastD_cons]
    exact ih (handleTyping cs k.1 k.2).1 k2

/-- Claim C6: the typing-stop timeout is a restartable 2-second timer — a
keystroke at time t overwrites any pending stop deadline with t + 2000 and
sends typing-start now; the stop callback emits is_typing:false exactly at
the pending deadline and at no other time; after a run of keystrokes the
deadline is last-keystroke + 2000; and a successful send cancels the pending
timer and emits the typing-stop immediately. -/
theorem typing_stop_restartable_timer (cs : ChatComp) (t u : Nat) (text : String)
    (k : Nat × String) (ks : List (Nat × String)) :
    (handleTyping cs t text).1.typingTimeout = some (t + 2000) ∧
    (handleTyping cs t text).2 = [(t, sendTypingIndicator cs.room true)] ∧
    (u ≠ t + 2000 → (typingTimeoutFire (handleTyping cs t text).1 u).2 = []) ∧
    (typingTimeoutFire (handleTyping cs t text).1 (t + 2000)).2 =
      [(t + 2000, sendTypingIndicator cs.room false)] ∧
    (runKeystrokes cs (k :: ks)).typingTimeout = some ((ks.getLastD k).1 + 2000) ∧
    (jsTrim text ≠ "" →
      (handleSendMessage (handleTyping cs t text).1 u).1.typingTimeout = none ∧
      (u, sendTypingIndicator cs.room false) ∈ (handleSendMessage (handleTyping cs t text).1 u).2) := by
  refine ⟨rfl, rfl, ?_, ?_, runKeystrokes_typingTimeout cs k ks, ?_⟩
  · intro hu
    simp [typingTimeoutFire, handleTyping, Ne.symm hu]
  · simp [typingTimeoutFire, handleTyping]
  · intro hne
    constructor
    · simp [handleSendMessage, handleTyping, hne]
    · simp [handleSendMessage, handleTyping, hne]

/-- Claim C6 witness: with a keystroke at t = 100, the stop timer does not
fire at time 50, does fire at 2100, and sending the non-empty message at 150
cancels the timer. -/
theorem typing_stop_restartable_timer_witness :
    (typingTimeoutFire (handleTyping { room := "general", newMessage := "", typingTimeout := none }
        100 " hi").1 50).2 = [] ∧
    (handleSendMessage (handleTyping { room := "general", newMessage := "", typingTimeout := none }
        100 " hi").1 150).1.typingTimeout = none := by
  have h := typing_stop_restartable_timer
    { room := "general", newMessage := "", typingTimeout := none } 100 50 " hi" (3, "a") []
  have h2 := typing_stop_restartable_timer
    { room := "general", newMessage := "", typingTimeout := none } 100 150 " hi" (3, "a") []
  exact ⟨h.2.2.1 (by decide), (h2.2.2.2.2.2 (by decide)).1⟩

/-- Claim C1 counterexample: registering handler 7 twice for the chat/general
key makes handleMessage invoke it twice for a single received message —
registration is not idempotent and delivery is duplicated. -/
theorem duplicate_registration_duplicates_delivery :
    (handleMessageCalls
        (addMessageHandler (addMessageHandler emptyWS "/ws/chat/" "general" 7)
          "/ws/chat/" "general" 7)
        (connectionKey "/ws/chat/" "general")).count 7 = 2 := by
  decide

/-- connect never touches the messageHandlers map, in any of its branches. -/
theorem connect_preserves_handlers (s : WSService) (url room token : String) :
    (connect s url room token).2.messageHandlers = s.messageHandlers := by
  cases hc : s.connections (connectionKey url room) with
  | some ws => simp [connect, hc]
  | none =>
    by_cases hf : s.isConnecting (connectionKey url room) <;> simp [connect, hc, hf]

/-- A disconnect/reconnect cycle never touches the messageHandlers map:
ws.onclose leaves it alone and connect leaves it alone. -/
theorem recCycle_preserves_handlers (s : WSService) (url room token : String) (code : Nat) :
    (recCycle s url room token code).messageHandlers = s.messageHandlers := by
  by_cases h1000 : code = 1000
  · simp [recCycle, onclose, h1000]
  · simp [recCycle, onclose, h1000, connect_preserves_handlers]

/-- Any number of disconnect/reconnect cycles leaves messageHandlers as it
was. -/
theorem runReconnects_preserves_handlers (s : WSService) (url room token : String)
    (codes : List Nat) :
    (runReconnects s url room token codes).messageHandlers = s.messageHandlers := by
  induction codes generalizing s with
  | nil => rfl
  | cons c cs ih =>
    calc (runReconnects (recCycle s url room token c) url room token cs).messageHandlers
        = (recCycle s url room token c).messageHandlers := ih _
      _ = s.messageHandlers := recCycle_preserves_handlers s url room token c

/-- Claim C1 amended: handler registration is not idempotent — every
addMessageHandler call appends, raising the handler's invocation count per
message by one even when it is already registered. Reconnects, however, do
not re-register anything: after any number of forced disconnect/reconnect
cycles the handler list is unchanged, so a handler registered exactly once is
invoked exactly once for each message delivered after the reconnects. -/
theorem handler_once_after_reconnects (s : WSService) (url room token : String)
    (hid : Nat) (codes : List Nat)
    (hone : (handleMessageCalls s (connectionKey url room)).count hid = 1) :
    (handleMessageCalls (runReconnects s url room token codes)
        (connectionKey url room)).count hid = 1 ∧
    ∀ s2 : WSService,
      (handleMessageCalls (addMessageHandler s2 url room hid)
          (connectionKey url room)).count hid =
        (handleMessageCalls s2 (connectionKey url room)).count hid + 1 := by
  constructor
  · have hpres := runReconnects_preserves_handlers s url room token codes
    unfold handleMessageCalls
    rw [hpres]
    exact hone
  · intro s2
    unfold handleMessageCalls addMessageHandler
    simp [List.count_append]

/-- Claim C1 amended witness: with handler 7 registered once, two abnormal
close/reconnect cycles leave it invoked exactly once per message, and one
more registration raises the count to two. -/
theorem handler_once_after_reconnects_witness :
    (handleMessageCalls
        (runReconnects (addMessageHandler emptyWS "/ws/chat/" "general" 7)
          "/ws/chat/" "general" "tok" [1006, 1011])
        (connectionKey "/ws/chat/" "general")).count 7 = 1 :=
  (handler_once_after_reconnects (addMessageHandler emptyWS "/ws/chat/" "general" 7)
    "/ws/chat/" "general" "tok" 7 [1006, 1011] (by decide)).1
